import Mathlib

/-!
# Beacon-block verification pipeline: a shallow embedding

This file embeds the error taxonomy and the decision logic of the beacon-block
verification pipeline (`beacon_node/beacon_chain/src/block_verification.rs`)
and of the sync dispatcher that feeds it
(`beacon_node/network/src/network_beacon_processor/sync_methods.rs`), and
proves the stated properties of the error classification, the relevancy
filter, the cheap state advance, the gossip observation step, the
chain-segment signature pass, the slasher hand-off and the fork-choice
attestation application.

Machine integers (slots, epochs, indices) are embedded as `Nat`; 32-byte
roots and opaque payloads (headers, wrapped sub-errors) are embedded as `Nat`
identifiers.  Fallible Rust functions returning `Result<A, E>` are embedded
as `Except E A`.  External collaborators (slot clock, caches, fork choice,
the execution layer) enter as explicit arguments carrying the result the
collaborator produced, so that the embedded function's own control flow is
taken from the source.
-/

set_option autoImplicit false

namespace BlockVerification

/-- Peer-scoring actions from the `lighthouse_network` crate.  The
chain-segment failure handler only ever uses `lowToleranceError`. -/
inductive PeerAction where
  | fatal
  | lowToleranceError
  | midToleranceError
  | highToleranceError
  deriving DecidableEq

/-- `ExecutionPayloadError` (block_verification.rs).  Opaque payload data of
the variants (the wrapped `execution_layer::Error`, the `PayloadStatus`, the
hashes, epochs and timestamps) is carried as `Nat` identifiers so distinct
concrete errors stay distinct. -/
inductive ExecutionPayloadError where
  | noExecutionConnection
  | requestFailed (err : Nat)
  | rejectedByExecutionEngine (status : Nat)
  | invalidPayloadTimestamp (expected found : Nat)
  | invalidTerminalPoWBlock (parentHash : Nat)
  | invalidActivationEpoch (activationEpoch epoch : Nat)
  | invalidTerminalBlockHash (terminalBlockHash payloadParentHash : Nat)
  | unverifiedNonOptimisticCandidate
  deriving DecidableEq

/-- `ExecutionPayloadError::penalize_peer` (block_verification.rs): the match
arm for each variant, in source order. -/
def ExecutionPayloadError.penalizePeer : ExecutionPayloadError → Bool
  | .noExecutionConnection => false
  | .requestFailed _ => false
  | .rejectedByExecutionEngine _ => false
  | .invalidPayloadTimestamp _ _ => true
  | .invalidTerminalPoWBlock _ => false
  | .invalidActivationEpoch _ _ => false
  | .invalidTerminalBlockHash _ _ => false
  | .unverifiedNonOptimisticCandidate => false

/-- Modelled from the spec: the §7 table for `penalize_peer()` — true only
for `InvalidPayloadTimestamp`, false for every other variant.  This is the
specification-side definition, to be compared against the source-side
`ExecutionPayloadError.penalizePeer`. -/
def penalizePeerSpecTable : ExecutionPayloadError → Bool
  | .invalidPayloadTimestamp _ _ => true
  | _ => false

/-- `BlockError` (block_verification.rs).  Slots, roots and indices are
`Nat`; wrapped sub-errors (`BlockProcessingError`, `BeaconChainError`,
`InconsistentFork`) are carried as `Nat` identifiers. -/
inductive BlockError where
  | parentUnknown (parentRoot : Nat)
  | futureSlot (presentSlot blockSlot : Nat)
  | stateRootMismatch (block localRoot : Nat)
  | genesisBlock
  | wouldRevertFinalizedSlot (blockSlot finalizedSlot : Nat)
  | notFinalizedDescendant (blockParentRoot : Nat)
  | blockIsAlreadyKnown
  | blockSlotLimitReached
  | incorrectBlockProposer (block localShuffling : Nat)
  | proposalSignatureInvalid
  | unknownValidator (index : Nat)
  | invalidSignature
  | blockIsNotLaterThanParent (blockSlot parentSlot : Nat)
  | nonLinearParentRoots
  | nonLinearSlots
  | perBlockProcessingError (err : Nat)
  | beaconChainError (err : Nat)
  | weakSubjectivityConflict
  | inconsistentFork (err : Nat)
  | executionPayloadError (err : ExecutionPayloadError)
  | parentExecutionPayloadInvalid (parentRoot : Nat)
  | slashable
  deriving DecidableEq

/-- `ChainSegmentFailed` (sync_methods.rs), keeping the peer-scoring field;
the log-only `message: String` field is not modelled. -/
structure ChainSegmentFailed where
  peerAction : Option PeerAction
  deriving DecidableEq

/-- `NetworkBeaconProcessor::handle_failed_chain_segment` (sync_methods.rs):
the match over `BlockError`, arm for arm in source order, ending with the
catch-all `other` arm. -/
def handleFailedChainSegment : BlockError → Except ChainSegmentFailed Unit
  | .parentUnknown _ => .error ⟨some .lowToleranceError⟩
  | .blockIsAlreadyKnown => .ok ()
  | .futureSlot _ _ => .error ⟨some .lowToleranceError⟩
  | .wouldRevertFinalizedSlot _ _ => .ok ()
  | .genesisBlock => .ok ()
  | .beaconChainError _ => .error ⟨none⟩
  | .executionPayloadError epe =>
      if !epe.penalizePeer then .error ⟨none⟩
      else .error ⟨some .lowToleranceError⟩
  | .parentExecutionPayloadInvalid _ => .error ⟨some .lowToleranceError⟩
  | _ => .error ⟨none⟩

/-- C3: `ExecutionPayloadError::penalize_peer` is a pure (hence
deterministic) function and agrees with the spec's §7 table on every
variant: it returns `true` exactly for `InvalidPayloadTimestamp` and `false`
for `NoExecutionConnection`, `RequestFailed`, `RejectedByExecutionEngine`,
`InvalidTerminalPoWBlock`, `InvalidActivationEpoch`,
`InvalidTerminalBlockHash` and `UnverifiedNonOptimisticCandidate`. -/
theorem penalizePeer_matches_spec_table (e : ExecutionPayloadError) :
    e.penalizePeer = penalizePeerSpecTable e := by
  cases e <;> rfl

/-- C1: contrary to the claim, `handle_failed_chain_segment` sends every
error of the block-invalid peer-fault class through its catch-all arm, which
returns `ChainSegmentFailed` with `peer_action = None` — no peer penalty —
even though the arm's own failure message reads "Peer sent invalid block"
and the `BlockError` variant documentation marks each of these errors as
"the peer is faulty".  The theorem evaluates the handler at each of the ten
variants named by the claim. -/
theorem handleFailedChainSegment_block_invalid_class_not_penalized :
    handleFailedChainSegment .proposalSignatureInvalid = .error ⟨none⟩ ∧
    handleFailedChainSegment .invalidSignature = .error ⟨none⟩ ∧
    handleFailedChainSegment (.stateRootMismatch 0 1) = .error ⟨none⟩ ∧
    handleFailedChainSegment (.perBlockProcessingError 0) = .error ⟨none⟩ ∧
    handleFailedChainSegment (.incorrectBlockProposer 0 1) = .error ⟨none⟩ ∧
    handleFailedChainSegment .nonLinearParentRoots = .error ⟨none⟩ ∧
    handleFailedChainSegment .nonLinearSlots = .error ⟨none⟩ ∧
    handleFailedChainSegment (.blockIsNotLaterThanParent 1 2) = .error ⟨none⟩ ∧
    handleFailedChainSegment (.inconsistentFork 0) = .error ⟨none⟩ ∧
    handleFailedChainSegment .blockSlotLimitReached = .error ⟨none⟩ :=
  ⟨rfl, rfl, rfl, rfl, rfl, rfl, rfl, rfl, rfl, rfl⟩

/-- The beacon state, restricted to the observables `block_verification.rs`
uses around `cheap_state_advance_to_obtain_committees`: the slot, and flags
recording whether the previous-epoch / current-epoch committee caches have
been built (`build_committee_cache(RelativeEpoch::Previous | Current, ..)`).
The full `BeaconState` lives in the external `types` crate. -/
structure BeaconState where
  slot : Nat
  committeeCachePrevious : Bool
  committeeCacheCurrent : Bool
  deriving DecidableEq

/-- `Slot::epoch(slots_per_epoch)`: integer division.  `slotsPerEpoch` is a
chain-spec constant (32 on mainnet) kept as a parameter, matching the
`E: EthSpec` type parameter of the source. -/
def epochOfSlot (slotsPerEpoch slot : Nat) : Nat := slot / slotsPerEpoch

/-- `Epoch::start_slot(slots_per_epoch)`. -/
def epochStartSlot (slotsPerEpoch epoch : Nat) : Nat := epoch * slotsPerEpoch

/-- `state.current_epoch()`: the epoch of the state's slot. -/
def BeaconState.currentEpoch (slotsPerEpoch : Nat) (s : BeaconState) : Nat :=
  epochOfSlot slotsPerEpoch s.slot

/-- The two consecutive `build_committee_cache` calls
(`RelativeEpoch::Previous` then `RelativeEpoch::Current`) that
`cheap_state_advance_to_obtain_committees` performs on each success path. -/
def BeaconState.buildCommitteeCaches (s : BeaconState) : BeaconState :=
  { s with committeeCachePrevious := true, committeeCacheCurrent := true }

/-- `Cow<BeaconState>`: the borrowed view (a reference to the caller's
state) or an owned clone. -/
inductive CowBeaconState where
  | borrowed (s : BeaconState)
  | owned (s : BeaconState)
  deriving DecidableEq

/-- `cheap_state_advance_to_obtain_committees` (block_verification.rs).

The Rust function takes `state: &'a mut BeaconState` and returns
`Cow<'a, _>`; the embedding returns the caller's state after the call
alongside the `Cow` view.  `partial_state_advance` (external
`state_processing` crate) is modelled as setting the clone's slot to the
target slot — the advance to the first slot of the block's epoch without
computing intermediate state roots — and the `state_root_opt` argument it
consumes is threaded through untouched. -/
def cheapStateAdvanceToObtainCommittees (slotsPerEpoch : Nat)
    (state : BeaconState) (_stateRootOpt : Option Nat) (blockSlot : Nat) :
    Except BlockError (BeaconState × CowBeaconState) :=
  let blockEpoch := epochOfSlot slotsPerEpoch blockSlot
  if state.currentEpoch slotsPerEpoch = blockEpoch then
    let s := state.buildCommitteeCaches
    .ok (s, .borrowed s)
  else if state.slot > blockSlot then
    .error (.blockIsNotLaterThanParent blockSlot state.slot)
  else
    -- `state.clone_with(CloneConfig::committee_caches_only())`: the clone
    -- carries the same observable fields as the original.
    let cloned := state
    let targetSlot := epochStartSlot slotsPerEpoch blockEpoch
    let advanced := { cloned with slot := targetSlot }
    .ok (state, .owned advanced.buildCommitteeCaches)

/-- C2 counterexample: the claim "for every state with
`state.slot() > block_slot` the function returns
`BlockIsNotLaterThanParent`" is false.  With 32 slots per epoch, a state at
slot 1 and a block at slot 0 share epoch 0, so the same-epoch branch fires
first and the call succeeds with a borrowed, cache-built view, despite
`state.slot() > block_slot`. -/
theorem cheapStateAdvance_newer_state_can_succeed :
    (⟨1, false, false⟩ : BeaconState).slot > 0 ∧
    cheapStateAdvanceToObtainCommittees 32 ⟨1, false, false⟩ none 0 =
      .ok (⟨1, true, true⟩, .borrowed ⟨1, true, true⟩) :=
  ⟨by decide, rfl⟩

/-- C2 (amended): `cheap_state_advance_to_obtain_committees` returns
`BlockIsNotLaterThanParent` exactly when the state is newer than the block
*and* their epochs differ; when the state's current epoch equals the block's
epoch it builds both committee caches in place and returns the borrowed
state (even if `state.slot > block_slot`); and when the epochs differ with
`state.slot ≤ block_slot` it clones, advances the clone to the first slot of
the block's epoch, builds its caches and returns it owned, leaving the
original state unmutated. -/
theorem cheapStateAdvance_cases (slotsPerEpoch : Nat) (state : BeaconState)
    (stateRootOpt : Option Nat) (blockSlot : Nat) :
    (epochOfSlot slotsPerEpoch state.slot ≠ epochOfSlot slotsPerEpoch blockSlot →
      blockSlot < state.slot →
      cheapStateAdvanceToObtainCommittees slotsPerEpoch state stateRootOpt blockSlot =
        .error (.blockIsNotLaterThanParent blockSlot state.slot)) ∧
    (epochOfSlot slotsPerEpoch state.slot = epochOfSlot slotsPerEpoch blockSlot →
      cheapStateAdvanceToObtainCommittees slotsPerEpoch state stateRootOpt blockSlot =
        .ok (state.buildCommitteeCaches, .borrowed state.buildCommitteeCaches)) ∧
    (epochOfSlot slotsPerEpoch state.slot ≠ epochOfSlot slotsPerEpoch blockSlot →
      state.slot ≤ blockSlot →
      cheapStateAdvanceToObtainCommittees slotsPerEpoch state stateRootOpt blockSlot =
        .ok (state, .owned (BeaconState.buildCommitteeCaches
          { state with slot :=
              epochStartSlot slotsPerEpoch (epochOfSlot slotsPerEpoch blockSlot) }))) := by
  refine ⟨fun hne hlt => ?_, fun heq => ?_, fun hne hle => ?_⟩
  · simp only [cheapStateAdvanceToObtainCommittees, BeaconState.currentEpoch]
    rw [if_neg hne, if_pos hlt]
  · simp only [cheapStateAdvanceToObtainCommittees, BeaconState.currentEpoch]
    rw [if_pos heq]
  · simp only [cheapStateAdvanceToObtainCommittees, BeaconState.currentEpoch]
    rw [if_neg hne, if_neg (by omega)]

/-- C2 witness: with 32 slots per epoch, a state at slot 40 (epoch 1) and a
block at slot 5 (epoch 0) fall into the error branch. -/
theorem cheapStateAdvance_cases_witness :
    cheapStateAdvanceToObtainCommittees 32 ⟨40, false, false⟩ none 5 =
      .error (.blockIsNotLaterThanParent 5 40) :=
  (cheapStateAdvance_cases 32 ⟨40, false, false⟩ none 5).1 (by decide) (by decide)

/-- `MAXIMUM_BLOCK_SLOT_NUMBER` (block_verification.rs): 2^32. -/
def MAXIMUM_BLOCK_SLOT_NUMBER : Nat := 4294967296

/-- `check_block_against_finalized_slot` (block_verification.rs), reduced to
its decision: error iff the block's slot is at most the finalized slot.  The
`finalizedSlot` argument carries the start slot of the finalized
checkpoint's epoch as read from the cached head. -/
def checkBlockAgainstFinalizedSlot (blockSlot finalizedSlot : Nat) :
    Except BlockError Unit :=
  if blockSlot ≤ finalizedSlot then
    .error (.wouldRevertFinalizedSlot blockSlot finalizedSlot)
  else .ok ()

/-- `check_block_relevancy` (block_verification.rs).  `presentSlot` is the
result of `chain.slot()` (`none` models the clock-read failure, which
surfaces as an internal `BeaconChainError`); `forkChoiceContains` is the
fork-choice `contains_block` query. -/
def checkBlockRelevancy (blockSlot blockRoot : Nat) (presentSlot : Option Nat)
    (finalizedSlot : Nat) (forkChoiceContains : Nat → Bool) :
    Except BlockError Nat :=
  match presentSlot with
  | none => .error (.beaconChainError 0)
  | some present =>
    if blockSlot > present then
      .error (.futureSlot present blockSlot)
    else if blockSlot = 0 then
      .error .genesisBlock
    else if blockSlot ≥ MAXIMUM_BLOCK_SLOT_NUMBER then
      .error .blockSlotLimitReached
    else
      match checkBlockAgainstFinalizedSlot blockSlot finalizedSlot with
      | .error e => .error e
      | .ok _ =>
        if forkChoiceContains blockRoot then
          .error .blockIsAlreadyKnown
        else
          .ok blockRoot

/-- C5: with a readable clock, `check_block_relevancy` rejects in this
order — `FutureSlot` when the block's slot exceeds the present slot,
`GenesisBlock` when the slot is 0, `BlockSlotLimitReached` when the slot is
at least 2^32, `WouldRevertFinalizedSlot` when the slot is at most the
finalized slot, `BlockIsAlreadyKnown` when fork choice contains the root —
and otherwise returns the block root unchanged.  Each conjunct assumes the
negation of every earlier guard, which expresses the ordering. -/
theorem checkBlockRelevancy_rejection_order (blockSlot blockRoot present finalizedSlot : Nat)
    (forkChoiceContains : Nat → Bool) :
    (present < blockSlot →
      checkBlockRelevancy blockSlot blockRoot (some present) finalizedSlot forkChoiceContains =
        .error (.futureSlot present blockSlot)) ∧
    (blockSlot ≤ present → blockSlot = 0 →
      checkBlockRelevancy blockSlot blockRoot (some present) finalizedSlot forkChoiceContains =
        .error .genesisBlock) ∧
    (blockSlot ≤ present → 0 < blockSlot → MAXIMUM_BLOCK_SLOT_NUMBER ≤ blockSlot →
      checkBlockRelevancy blockSlot blockRoot (some present) finalizedSlot forkChoiceContains =
        .error .blockSlotLimitReached) ∧
    (blockSlot ≤ present → 0 < blockSlot → blockSlot < MAXIMUM_BLOCK_SLOT_NUMBER →
      blockSlot ≤ finalizedSlot →
      checkBlockRelevancy blockSlot blockRoot (some present) finalizedSlot forkChoiceContains =
        .error (.wouldRevertFinalizedSlot blockSlot finalizedSlot)) ∧
    (blockSlot ≤ present → 0 < blockSlot → blockSlot < MAXIMUM_BLOCK_SLOT_NUMBER →
      finalizedSlot < blockSlot → forkChoiceContains blockRoot = true →
      checkBlockRelevancy blockSlot blockRoot (some present) finalizedSlot forkChoiceContains =
        .error .blockIsAlreadyKnown) ∧
    (blockSlot ≤ present → 0 < blockSlot → blockSlot < MAXIMUM_BLOCK_SLOT_NUMBER →
      finalizedSlot < blockSlot → forkChoiceContains blockRoot = false →
      checkBlockRelevancy blockSlot blockRoot (some present) finalizedSlot forkChoiceContains =
        .ok blockRoot) := by
  refine ⟨fun h1 => ?_, fun h1 h2 => ?_, fun h1 h2 h3 => ?_, fun h1 h2 h3 h4 => ?_,
    fun h1 h2 h3 h4 h5 => ?_, fun h1 h2 h3 h4 h5 => ?_⟩ <;>
    simp only [checkBlockRelevancy, checkBlockAgainstFinalizedSlot]
  · rw [if_pos h1]
  · rw [if_neg (by omega), if_pos h2]
  · rw [if_neg (by omega), if_neg (by omega), if_pos h3]
  · rw [if_neg (by omega), if_neg (by omega), if_neg (by omega), if_pos h4]
  · rw [if_neg (by omega), if_neg (by omega), if_neg (by omega), if_neg (by omega)]
    simp only [h5, if_pos]
  · rw [if_neg (by omega), if_neg (by omega), if_neg (by omega), if_neg (by omega)]
    simp only [h5, Bool.false_eq_true, if_false]

/-- C5 witness: present slot 10, finalized slot 2, block slot 5, a root not
yet in fork choice passes every guard and is returned unchanged. -/
theorem checkBlockRelevancy_rejection_order_witness :
    checkBlockRelevancy 5 77 (some 10) 2 (fun _ => false) = .ok 77 :=
  (checkBlockRelevancy_rejection_order 5 77 10 2 (fun _ => false)).2.2.2.2.2
    (by decide) (by decide) (by decide) (by decide) rfl

/-- Modelled from the spec: `SeenBlock`, the status returned by the
observed-block-producers cache (`beacon_chain::observed_block_producers`, a
module outside the two source files).  §4.5: `observe_proposal` returns one
of `{UniqueNonSlashable, Duplicate, Slashable}`; §8: the second
distinct-root observation from the same proposer and slot yields
`Slashable`, while re-seeing the same root is a `Duplicate`. -/
inductive SeenBlock where
  | uniqueNonSlashable
  | duplicate
  | slashable
  deriving DecidableEq

/-- Modelled from the spec: `SeenBlock::is_slashable` holds exactly for the
`Slashable` status (the equivocation case). -/
def SeenBlock.isSlashable : SeenBlock → Bool
  | .slashable => true
  | _ => false

/-- The inputs of the tail of `GossipVerifiedBlock::new_without_slasher_checks`
(block_verification.rs) from the proposer-signature check onwards, each field
carrying what the corresponding collaborator returned:
`signatureIsValid` is `block.verify_signature(..)`;
`observeProposalResult` is
`observed_block_producers.write().observe_proposal(block_root, block.message())`
with `none` for its `Err(e)` branch (mapped to `BeaconChainError`);
`blockProposerIndex` is `block.message().proposer_index()`;
`expectedProposer` is the locally computed shuffling index; and
`payloadGossipCheck` is `validate_execution_payload_for_gossip(..)`. -/
structure GossipObserveInput where
  signatureIsValid : Bool
  observeProposalResult : Option SeenBlock
  blockProposerIndex : Nat
  expectedProposer : Nat
  payloadGossipCheck : Except BlockError Unit

/-- The continuation of `new_without_slasher_checks` after a
`UniqueNonSlashable` observation: the proposer-index equality check, then
the execution-payload gossip checks. -/
def gossipProposerIndexCheck (blockProposerIndex expectedProposer : Nat)
    (payloadGossipCheck : Except BlockError Unit) : Except BlockError Unit :=
  if blockProposerIndex ≠ expectedProposer then
    .error (.incorrectBlockProposer blockProposerIndex expectedProposer)
  else
    payloadGossipCheck

/-- The signature-then-observation steps of `new_without_slasher_checks`:
returns the verification outcome together with a flag recording whether
`observe_proposal` was invoked. -/
def gossipSignatureAndObservation (i : GossipObserveInput) :
    Except BlockError Unit × Bool :=
  if !i.signatureIsValid then
    (.error .proposalSignatureInvalid, false)
  else
    match i.observeProposalResult with
    | none => (.error (.beaconChainError 0), true)
    | some .slashable => (.error .slashable, true)
    | some .duplicate => (.error .blockIsAlreadyKnown, true)
    | some .uniqueNonSlashable =>
      (gossipProposerIndexCheck i.blockProposerIndex i.expectedProposer
        i.payloadGossipCheck, true)

/-- C6: during gossip verification `observe_proposal` is invoked only after
the proposer signature verified valid (an invalid signature returns
`ProposalSignatureInvalid` with no observation); once invoked, a `Duplicate`
observation maps to `BlockIsAlreadyKnown`, a `Slashable` observation maps to
`Slashable`, and only `UniqueNonSlashable` lets verification continue to the
proposer-index equality check. -/
theorem gossip_observeProposal_after_valid_signature (obs : Option SeenBlock)
    (blockProposer expected : Nat) (payloadCheck : Except BlockError Unit) :
    gossipSignatureAndObservation ⟨false, obs, blockProposer, expected, payloadCheck⟩ =
      (.error .proposalSignatureInvalid, false) ∧
    gossipSignatureAndObservation ⟨true, none, blockProposer, expected, payloadCheck⟩ =
      (.error (.beaconChainError 0), true) ∧
    gossipSignatureAndObservation
        ⟨true, some .duplicate, blockProposer, expected, payloadCheck⟩ =
      (.error .blockIsAlreadyKnown, true) ∧
    gossipSignatureAndObservation
        ⟨true, some .slashable, blockProposer, expected, payloadCheck⟩ =
      (.error .slashable, true) ∧
    gossipSignatureAndObservation
        ⟨true, some .uniqueNonSlashable, blockProposer, expected, payloadCheck⟩ =
      (gossipProposerIndexCheck blockProposer expected payloadCheck, true) :=
  ⟨rfl, rfl, rfl, rfl, rfl⟩

/-- `BlockSlashInfo` (block_verification.rs).  Headers are `Nat`
identifiers. -/
inductive BlockSlashInfo where
  | signatureNotChecked (header : Nat) (err : BlockError)
  | signatureInvalid (err : BlockError)
  | signatureValid (header : Nat) (err : BlockError)
  deriving DecidableEq

/-- The error carried by a `BlockSlashInfo` (the `e` each arm of
`process_block_slash_info` propagates). -/
def BlockSlashInfo.blockError : BlockSlashInfo → BlockError
  | .signatureNotChecked _ e => e
  | .signatureInvalid e => e
  | .signatureValid _ e => e

/-- `process_block_slash_info` (block_verification.rs).
`slasherConfigured` models `chain.slasher.is_some()`; `headerRecheckOk`
models `verify_header_signature(chain, &header).is_ok()`, the fresh
proposer-signature-only recheck.  The result pairs the propagated error with
the header handed to `slasher.accept_block_header`, if any. -/
def processBlockSlashInfo (slasherConfigured headerRecheckOk : Bool)
    (slashInfo : BlockSlashInfo) : BlockError × Option Nat :=
  if slasherConfigured then
    match slashInfo with
    | .signatureNotChecked header e =>
      if headerRecheckOk then (e, some header) else (e, none)
    | .signatureInvalid e => (e, none)
    | .signatureValid header e => (e, some header)
  else
    (slashInfo.blockError, none)

/-- C8: with a slasher configured, `process_block_slash_info` forwards the
block header exactly for `SignatureValid`, and for `SignatureNotChecked`
when the fresh proposer-signature-only recheck succeeds; it never forwards
for `SignatureInvalid` (nor for a failed recheck); and in every case —
slasher or not — the original error is returned unchanged. -/
theorem processBlockSlashInfo_forwarding (recheck slasher : Bool) (header : Nat)
    (err : BlockError) (info : BlockSlashInfo) :
    processBlockSlashInfo true recheck (.signatureValid header err) =
      (err, some header) ∧
    processBlockSlashInfo true true (.signatureNotChecked header err) =
      (err, some header) ∧
    processBlockSlashInfo true false (.signatureNotChecked header err) =
      (err, none) ∧
    processBlockSlashInfo true recheck (.signatureInvalid err) = (err, none) ∧
    (processBlockSlashInfo slasher recheck info).1 = info.blockError := by
  refine ⟨rfl, rfl, rfl, rfl, ?_⟩
  cases slasher with
  | false => rfl
  | true => cases info with
    | signatureNotChecked h e => cases recheck <;> rfl
    | signatureInvalid e => rfl
    | signatureValid h e => rfl

/-- The outcome of
`observed_block_producers.read().proposer_has_been_observed(block.message(), root)`
as matched in `process_rpc_block` (sync_methods.rs): `Ok(seen_status)`, or
one of the two `Err(ObserveError::..)` variants the code handles. -/
inductive ObserveOutcome where
  | seen (status : SeenBlock)
  | errFinalizedBlock
  | errValidatorIndexTooHigh
  deriving DecidableEq

/-- The inputs that determine the dispatch decision of `process_rpc_block`
(sync_methods.rs): whether `duplicate_cache.check_and_insert(block_root)`
handed out a handle; whether the system clock was readable
(`SystemTime::now().duration_since(UNIX_EPOCH)`); the observed block delay
(`get_block_delay_ms`) and the attestation deadline
(`slot_clock.unagg_attestation_production_delay()`), both in milliseconds;
and the proposer-observation outcome. -/
structure RpcBlockInput where
  duplicateCacheInserted : Bool
  systemTimeAvailable : Bool
  blockDelayMs : Nat
  unaggAttestationProductionDelayMs : Nat
  observeOutcome : ObserveOutcome
  deriving DecidableEq

/-- How `process_rpc_block` routes the block: requeue because another import
of the same root is in flight (the duplicate-cache gate), requeue as an
early equivocating block (the late-block requeue), or fall through to
`chain.process_block`. -/
inductive RpcBlockAction where
  | requeueDuplicate
  | requeueLate
  | processBlock
  deriving DecidableEq

/-- `block_is_late` in `process_rpc_block`: true when the block delay
exceeds the unaggregated-attestation production delay, and also — to avoid
requeue loops — when the system clock cannot be read (`map_or(true, ..)`). -/
def blockIsLate (i : RpcBlockInput) : Bool :=
  if i.systemTimeAvailable then
    decide (i.blockDelayMs > i.unaggAttestationProductionDelayMs)
  else
    true

/-- `block_equivocates` in `process_rpc_block`: the proposer-observation
status is slashable; the `FinalizedBlock` and `ValidatorIndexTooHigh` errors
count as not equivocating (those blocks are rejected downstream rather than
requeued). -/
def blockEquivocates (i : RpcBlockInput) : Bool :=
  match i.observeOutcome with
  | .seen status => status.isSlashable
  | .errFinalizedBlock => false
  | .errValidatorIndexTooHigh => false

/-- The dispatch decision of `process_rpc_block` (sync_methods.rs): the
duplicate-cache gate, then the late-block requeue
(`if !block_is_late && block_equivocates()`), then `chain.process_block`. -/
def processRpcBlockDispatch (i : RpcBlockInput) : RpcBlockAction :=
  if !i.duplicateCacheInserted then
    .requeueDuplicate
  else if !(blockIsLate i) && blockEquivocates i then
    .requeueLate
  else
    .processBlock

/-- C4 counterexample: the claim "requeue exactly when the block arrived
before the attestation deadline and the proposer has been observed before
for that slot" is false at a `Duplicate` observation.  Here the clock is
readable, the block delay (0 ms) is within the deadline (1000 ms), and the
proposer *has* been observed before for the slot — with the same block
root, so `proposer_has_been_observed` reports `Duplicate`, which
`is_slashable` rejects — yet `process_rpc_block` does not requeue and
proceeds to `process_block`. -/
theorem processRpcBlock_duplicate_not_requeued :
    (0 : Nat) ≤ 1000 ∧
    processRpcBlockDispatch ⟨true, true, 0, 1000, .seen .duplicate⟩ =
      .processBlock :=
  ⟨by decide, rfl⟩

/-- C4 (amended): once the duplicate-cache gate passes, `process_rpc_block`
requeues the block (and does not call `process_block` in that invocation)
exactly when the clock was readable with the block's delay at most the
unaggregated-attestation production delay *and* the proposer had been
observed before with a distinct block root — a slashable observation; a
`Duplicate` (same-root) observation, an observation error, or a late or
first-seen block instead proceeds to `process_block`. -/
theorem processRpcBlock_requeue_iff (timeOk : Bool) (delayMs deadlineMs : Nat)
    (obs : ObserveOutcome) :
    processRpcBlockDispatch ⟨true, timeOk, delayMs, deadlineMs, obs⟩ =
      (if timeOk = true ∧ delayMs ≤ deadlineMs ∧ obs = .seen .slashable then
        .requeueLate
      else
        .processBlock) := by
  rcases obs with status | _ | _
  · cases status <;> cases timeOk <;>
      by_cases h : delayMs ≤ deadlineMs <;>
      simp [processRpcBlockDispatch, blockIsLate, blockEquivocates,
        SeenBlock.isSlashable, h, Nat.not_le.mp, Nat.lt_of_not_le] <;>
      omega
  · cases timeOk <;>
      simp [processRpcBlockDispatch, blockIsLate, blockEquivocates]
  · cases timeOk <;>
      simp [processRpcBlockDispatch, blockIsLate, blockEquivocates]

/-- A block as consumed by `signature_verify_chain_segment`
(block_verification.rs): its slot, the validity of each signature it
contributes to the batch verifier (`include_all_signatures` appends the
block's proposal, RANDAO, attestation, slashing, exit and
bls-to-execution-change signature sets, and the aggregate `verify()`
succeeds iff every appended signature is valid), and the result of the
fallible `include_all_signatures` call itself (which can fail before
`verify()`, e.g. with `IncorrectBlockProposer`). -/
structure SegmentBlock where
  slot : Nat
  signatures : List Bool
  includeResult : Except BlockError Unit

/-- `SignatureVerifiedBlock` (block_verification.rs), keeping the fields the
chain-segment claims are about: the block root, the block, and whether the
loaded parent snapshot is attached (`parent: Option<PreProcessingSnapshot>`).
The consensus context filled during inclusion is carried by the block
itself in this model. -/
structure SignatureVerifiedBlock where
  blockRoot : Nat
  block : SegmentBlock
  hasParent : Bool

/-- `PreProcessingSnapshot` (snapshot_cache, outside the two source files):
the parent's pre-state and its known state root, the two fields
`signature_verify_chain_segment` reads. -/
structure PreProcessingSnapshot where
  preState : BeaconState
  beaconStateRoot : Option Nat

/-- The per-block loop of `signature_verify_chain_segment`: for each
`(block_root, block)` run `include_all_signatures` (short-circuiting on its
error) and push a `SignatureVerifiedBlock` with `parent: None`; the
accumulated signature list is what the single aggregate `verify()` will
check. -/
def includeAllSignaturesLoop : List (Nat × SegmentBlock) →
    Except BlockError (List SignatureVerifiedBlock × List Bool)
  | [] => .ok ([], [])
  | (root, b) :: rest =>
    match b.includeResult with
    | .error e => .error e
    | .ok _ =>
      match includeAllSignaturesLoop rest with
      | .error e => .error e
      | .ok (blocks, sigs) => .ok (⟨root, b, false⟩ :: blocks, b.signatures ++ sigs)

/-- After `verify()` succeeds, the parent snapshot is attached to the first
wrapper only (`signature_verified_blocks.first_mut()`). -/
def attachParentToFirst : List SignatureVerifiedBlock → List SignatureVerifiedBlock
  | [] => []
  | b :: rest => { b with hasParent := true } :: rest

/-- `signature_verify_chain_segment` (block_verification.rs).

`loadParentResult` carries what `load_parent(first_root, first_block, chain)`
returned; `pubkeyCacheOk` models `get_validator_pubkey_cache` (false is the
lock-timeout internal error).  The second component of the result counts how
many times the aggregate `verify()` was invoked. -/
def signatureVerifyChainSegment (slotsPerEpoch : Nat)
    (loadParentResult : Except BlockError PreProcessingSnapshot)
    (pubkeyCacheOk : Bool) (chainSegment : List (Nat × SegmentBlock)) :
    Except BlockError (List SignatureVerifiedBlock) × Nat :=
  match chainSegment with
  | [] => (.ok [], 0)
  | (firstRoot, firstBlock) :: rest =>
    match loadParentResult with
    | .error e => (.error e, 0)
    | .ok parent =>
      let slot := firstBlock.slot
      let seg := (firstRoot, firstBlock) :: rest
      let highestSlot := ((seg.getLast?).map (fun rb => rb.2.slot)).getD slot
      match cheapStateAdvanceToObtainCommittees slotsPerEpoch parent.preState
          parent.beaconStateRoot highestSlot with
      | .error e => (.error e, 0)
      | .ok _ =>
        if !pubkeyCacheOk then (.error (.beaconChainError 0), 0)
        else
          match includeAllSignaturesLoop seg with
          | .error e => (.error e, 0)
          | .ok (blocks, sigs) =>
            if sigs.all (fun b => b) then (.ok (attachParentToFirst blocks), 1)
            else (.error .invalidSignature, 1)

theorem includeAllSignaturesLoop_all_ok (seg : List (Nat × SegmentBlock))
    (h : ∀ x ∈ seg, x.2.includeResult = .ok ()) :
    includeAllSignaturesLoop seg =
      .ok (seg.map (fun rb => ⟨rb.1, rb.2, false⟩),
        (seg.map (fun rb => rb.2.signatures)).flatten) := by
  induction seg with
  | nil => rfl
  | cons hd tl ih =>
    obtain ⟨root, b⟩ := hd
    have hb : b.includeResult = .ok () := h (root, b) (List.mem_cons_self _ _)
    have htl := ih (fun x hx => h x (List.mem_cons_of_mem _ hx))
    simp only [includeAllSignaturesLoop, hb, htl, List.map_cons, List.flatten_cons]

/-- C7: for a non-empty single-epoch chain segment whose parent loads, whose
cheap state advance succeeds, whose pubkey cache is available and whose
per-block signature inclusion succeeds, `signature_verify_chain_segment`
invokes the aggregate `verify()` exactly once; when every included signature
is valid it returns one `SignatureVerifiedBlock` per input block (in order,
the parent snapshot attached to the first); and when any single signature is
invalid it returns `InvalidSignature` for the whole segment, producing no
wrapper for any block. -/
theorem signatureVerifyChainSegment_single_verify (slotsPerEpoch : Nat)
    (parent : PreProcessingSnapshot) (first : Nat × SegmentBlock)
    (rest : List (Nat × SegmentBlock)) (advanced : BeaconState × CowBeaconState)
    (hepoch : ∀ x ∈ first :: rest,
      epochOfSlot slotsPerEpoch x.2.slot = epochOfSlot slotsPerEpoch first.2.slot)
    (hadv : cheapStateAdvanceToObtainCommittees slotsPerEpoch parent.preState
      parent.beaconStateRoot
      ((((first :: rest).getLast?).map (fun rb => rb.2.slot)).getD first.2.slot) =
        .ok advanced)
    (hinc : ∀ x ∈ first :: rest, x.2.includeResult = .ok ()) :
    (signatureVerifyChainSegment slotsPerEpoch (.ok parent) true
        (first :: rest)).2 = 1 ∧
    ((∀ x ∈ first :: rest, ∀ s ∈ x.2.signatures, s = true) →
      (signatureVerifyChainSegment slotsPerEpoch (.ok parent) true
          (first :: rest)).1 =
        .ok (attachParentToFirst
          ((first :: rest).map (fun rb => ⟨rb.1, rb.2, false⟩)))) ∧
    ((∃ x ∈ first :: rest, false ∈ x.2.signatures) →
      (signatureVerifyChainSegment slotsPerEpoch (.ok parent) true
          (first :: rest)).1 = .error .invalidSignature) := by
  clear hepoch
  obtain ⟨firstRoot, firstBlock⟩ := first
  have hloop := includeAllSignaturesLoop_all_ok _ hinc
  refine ⟨?_, fun hvalid => ?_, fun hbad => ?_⟩
  · simp only [signatureVerifyChainSegment, hadv, hloop, Bool.not_true, if_false,
      Bool.false_eq_true]
    split <;> rfl
  · have hall : (((firstRoot, firstBlock) :: rest).map
        (fun rb => rb.2.signatures)).flatten.all (fun b => b) = true := by
      simp only [List.all_eq_true, List.mem_flatten, List.mem_map]
      rintro s ⟨l, ⟨rb, hrb, rfl⟩, hs⟩
      exact hvalid rb hrb s hs
    simp only [signatureVerifyChainSegment, hadv, hloop, Bool.not_true, if_false,
      Bool.false_eq_true, hall, if_true]
  · have hnotall : (((firstRoot, firstBlock) :: rest).map
        (fun rb => rb.2.signatures)).flatten.all (fun b => b) = false := by
      obtain ⟨x, hx, hfalse⟩ := hbad
      rw [Bool.eq_false_iff]
      intro hall
      rw [List.all_eq_true] at hall
      have : false = true := hall false (by
        rw [List.mem_flatten]
        exact ⟨x.2.signatures, List.mem_map.mpr ⟨x, hx, rfl⟩, hfalse⟩)
      simp at this
    simp only [signatureVerifyChainSegment, hadv, hloop, Bool.not_true, if_false,
      Bool.false_eq_true, hnotall]

/-- C7 witness: a two-block epoch-0 segment (slots 5 and 6) with a flipped
signature in the second block, behind a parent pre-state at slot 5, performs
its single `verify()` and rejects the whole segment with
`InvalidSignature`. -/
theorem signatureVerifyChainSegment_single_verify_witness :
    (signatureVerifyChainSegment 32 (.ok ⟨⟨5, false, false⟩, none⟩) true
        [(1, ⟨5, [true, true], .ok ()⟩), (2, ⟨6, [true, false], .ok ()⟩)]).2 = 1 ∧
    (signatureVerifyChainSegment 32 (.ok ⟨⟨5, false, false⟩, none⟩) true
        [(1, ⟨5, [true, true], .ok ()⟩), (2, ⟨6, [true, false], .ok ()⟩)]).1 =
      .error .invalidSignature := by
  have h := signatureVerifyChainSegment_single_verify 32 ⟨⟨5, false, false⟩, none⟩
    (1, ⟨5, [true, true], .ok ()⟩) [(2, ⟨6, [true, false], .ok ()⟩)]
    (⟨5, true, true⟩, .borrowed ⟨5, true, true⟩)
    (by intro x hx; fin_cases hx <;> rfl)
    (by rfl)
    (by intro x hx; fin_cases hx <;> rfl)
  exact ⟨h.1, h.2.2 ⟨(2, ⟨6, [true, false], .ok ()⟩), by simp, by simp⟩⟩

/-- C10: `signature_verify_chain_segment` on the empty segment returns `Ok`
with the empty vector at once — for every possible parent-load result and
pubkey-cache condition, so the parent is never loaded — and the aggregate
`verify()` is invoked zero times. -/
theorem signatureVerifyChainSegment_empty (slotsPerEpoch : Nat)
    (loadParentResult : Except BlockError PreProcessingSnapshot)
    (pubkeyCacheOk : Bool) :
    signatureVerifyChainSegment slotsPerEpoch loadParentResult pubkeyCacheOk [] =
      (.ok [], 0) :=
  rfl

/-- The outcome of `fork_choice.on_attestation(current_slot, indexed, ..)`
for one attestation, as matched in
`ExecutionPendingBlock::from_signature_verified_components`
(block_verification.rs): `Ok(())`, the ignored
`Err(ForkChoiceError::InvalidAttestation(_))`, or any other fork-choice
error. -/
inductive OnAttestationOutcome where
  | accepted
  | invalidAttestation
  | otherForkChoiceError
  deriving DecidableEq

/-- An attestation in the block body as consumed by the fork-choice loop:
an identifier, whether `consensus_context.get_indexed_attestation` succeeds
(its failure becomes `PerBlockProcessingError`), and the `on_attestation`
outcome for its indexed form. -/
structure BlockAttestation where
  id : Nat
  indexedOk : Bool
  onAttestationOutcome : OnAttestationOutcome
  deriving DecidableEq

/-- An observable call on the write-locked fork choice. -/
inductive ForkChoiceEvent where
  | attesterSlashingRegistered (id : Nat)
  | onAttestationCalled (id : Nat)
  deriving DecidableEq

/-- The attestation loop of `from_signature_verified_components`: convert
each attestation to its indexed form, call `on_attestation`, ignore
`InvalidAttestation` errors, and abort with an internal `BeaconChainError`
on any other fork-choice error.  Returns the loop's result together with the
`on_attestation` calls made. -/
def applyBlockAttestations : List BlockAttestation →
    Except BlockError Unit × List ForkChoiceEvent
  | [] => (.ok (), [])
  | a :: rest =>
    if !a.indexedOk then
      (.error (.perBlockProcessingError 0), [])
    else
      match a.onAttestationOutcome with
      | .otherForkChoiceError =>
        (.error (.beaconChainError 0), [.onAttestationCalled a.id])
      | _ =>
        let tail := applyBlockAttestations rest
        (tail.1, .onAttestationCalled a.id :: tail.2)

/-- The fork-choice side-effect section of `from_signature_verified_components`
(block_verification.rs): under the fork-choice write lock, first register
every attester slashing in the block (`on_attester_slashing` is infallible),
then run the attestation loop. -/
def applyForkChoiceSideEffects (attesterSlashings : List Nat)
    (attestations : List BlockAttestation) :
    Except BlockError Unit × List ForkChoiceEvent :=
  let attResult := applyBlockAttestations attestations
  (attResult.1,
    attesterSlashings.map ForkChoiceEvent.attesterSlashingRegistered ++ attResult.2)

/-- C9: in the fork-choice side-effect step, every attester slashing in the
block is registered before any attestation is applied; when every
attestation's indexed form is available and no `on_attestation` call fails
with an error other than `InvalidAttestation`, the step succeeds — so
`InvalidAttestation` failures are ignored and every attestation is still
applied; and when some `on_attestation` call fails with any other error
(the earlier attestations having been well-behaved), the step aborts with an
internal `BeaconChainError`. -/
theorem applyForkChoiceSideEffects_ignores_invalid_attestations
    (attesterSlashings : List Nat) (attestations : List BlockAttestation) :
    ((∀ a ∈ attestations, a.indexedOk = true ∧
        a.onAttestationOutcome ≠ .otherForkChoiceError) →
      applyForkChoiceSideEffects attesterSlashings attestations =
        (.ok (),
          attesterSlashings.map ForkChoiceEvent.attesterSlashingRegistered ++
            attestations.map (fun a => .onAttestationCalled a.id))) ∧
    (∀ pre a post, attestations = pre ++ a :: post →
      (∀ b ∈ pre, b.indexedOk = true ∧
        b.onAttestationOutcome ≠ .otherForkChoiceError) →
      a.indexedOk = true → a.onAttestationOutcome = .otherForkChoiceError →
      (applyForkChoiceSideEffects attesterSlashings attestations).1 =
        .error (.beaconChainError 0)) := by
  have hok : ∀ l : List BlockAttestation,
      (∀ a ∈ l, a.indexedOk = true ∧
        a.onAttestationOutcome ≠ .otherForkChoiceError) →
      applyBlockAttestations l = (.ok (), l.map (fun a => .onAttestationCalled a.id)) := by
    intro l
    induction l with
    | nil => intro _; rfl
    | cons hd tl ih =>
      intro h
      obtain ⟨hidx, hout⟩ := h hd (List.mem_cons_self _ _)
      have htl := ih (fun a ha => h a (List.mem_cons_of_mem _ ha))
      cases houtc : hd.onAttestationOutcome with
      | accepted =>
        simp only [applyBlockAttestations, hidx, Bool.not_true, Bool.false_eq_true,
          if_false, houtc, htl, List.map_cons]
      | invalidAttestation =>
        simp only [applyBlockAttestations, hidx, Bool.not_true, Bool.false_eq_true,
          if_false, houtc, htl, List.map_cons]
      | otherForkChoiceError => exact absurd houtc hout
  constructor
  · intro h
    simp only [applyForkChoiceSideEffects, hok attestations h]
  · intro pre a post hsplit hpre hidx hout
    subst hsplit
    simp only [applyForkChoiceSideEffects]
    induction pre with
    | nil =>
      simp only [List.nil_append, applyBlockAttestations, hidx, Bool.not_true,
        Bool.false_eq_true, if_false, hout]
    | cons hd tl ih =>
      obtain ⟨hhidx, hhout⟩ := hpre hd (List.mem_cons_self _ _)
      have := ih (fun b hb => hpre b (List.mem_cons_of_mem _ hb))
      simp only [List.cons_append, applyBlockAttestations, hhidx, Bool.not_true,
        Bool.false_eq_true, if_false] at *
      cases houtc : hd.onAttestationOutcome <;> simp_all

/-- C9 witness: one attester slashing and two attestations, the first of
which fails `on_attestation` with `InvalidAttestation`: the step still
succeeds, the slashing registration precedes both `on_attestation` calls,
and both attestations are applied. -/
theorem applyForkChoiceSideEffects_ignores_invalid_attestations_witness :
    applyForkChoiceSideEffects [7]
        [⟨1, true, .invalidAttestation⟩, ⟨2, true, .accepted⟩] =
      (.ok (), [.attesterSlashingRegistered 7, .onAttestationCalled 1,
        .onAttestationCalled 2]) :=
  (applyForkChoiceSideEffects_ignores_invalid_attestations [7]
      [⟨1, true, .invalidAttestation⟩, ⟨2, true, .accepted⟩]).1
    (by intro a ha; fin_cases ha <;> exact ⟨rfl, by simp⟩)

end BlockVerification
